import Mathlib

/-!
Shallow embedding of `src/src/App.tsx` of the films-tv repository: the data
model, the column cell renderers, the start-time filter predicate, the
sorted/filtered row projection, and the three-state view rendering.

Machine numbers of the host language are modelled as `Int` (epoch
milliseconds) and `ℚ` (rating values); the invalid-date value `NaN` is
modelled by `Option` (`none`), since every comparison against `NaN` is false.
-/

namespace FilmsTv

/-- `RatingsInfo` from App.tsx: `rottenRating` (out of 100) and `imdbRating`
(out of 10) are both optional numbers. -/
structure RatingsInfo where
  rottenRating : Option ℚ
  imdbRating : Option ℚ
deriving DecidableEq

/-- `Movie` from App.tsx. Timestamp fields stay strings, as in the payload. -/
structure Movie where
  title : String
  directors : List String
  categories : List String
  iconUrl : String
  startDateTime : String
  stopDateTime : String
  channelId : String
  ratingsInfo : RatingsInfo
deriving DecidableEq

/-- `MoviesResponse` from App.tsx: the decoded payload. -/
structure MoviesResponse where
  lastUpdateDateTime : String
  movies : List Movie
deriving DecidableEq

/-! ### Date parsing

Modelled from the spec: the host runtime's `new Date(s).getTime()` applied to
the payload's ISO 8601 timestamp strings (the parser itself is host-library
code, not part of App.tsx). We support the UTC form `YYYY-MM-DDTHH:MM:SSZ`
with year ≥ 1970; any other string is treated as an invalid date, whose
`getTime()` is `NaN`, modelled as `none`. -/

/-- Value of a decimal digit character, `none` if not a digit. -/
def digitVal (c : Char) : Option Nat :=
  let n := c.toNat
  if 48 ≤ n ∧ n ≤ 57 then some (n - 48) else none

/-- Two decimal digit characters as a number. -/
def twoDigits (a b : Char) : Option Nat :=
  match digitVal a, digitVal b with
  | some x, some y => some (10 * x + y)
  | _, _ => none

/-- Four decimal digit characters as a number. -/
def fourDigits (a b c d : Char) : Option Nat :=
  match digitVal a, digitVal b, digitVal c, digitVal d with
  | some w, some x, some y, some z => some (1000 * w + 100 * x + 10 * y + z)
  | _, _, _, _ => none

/-- Gregorian leap-year test. -/
def isLeapYear (y : Nat) : Bool :=
  (y % 4 == 0 && y % 100 != 0) || y % 400 == 0

/-- Number of days in month `m` (1-12) of year `y`. -/
def daysInMonth (y m : Nat) : Nat :=
  if m == 2 then (if isLeapYear y then 29 else 28)
  else if m == 4 || m == 6 || m == 9 || m == 11 then 30
  else 31

/-- Leap years in `[1, y]`. -/
def leapCount (y : Nat) : Nat := y / 4 - y / 100 + y / 400

/-- Days elapsed in year `y` before month `m` (1-12) starts. -/
def daysBeforeMonth (y m : Nat) : Nat :=
  let base := [0, 31, 59, 90, 120, 151, 181, 212, 243, 273, 304, 334].getD (m - 1) 0
  if 3 ≤ m ∧ isLeapYear y then base + 1 else base

/-- Days from 1970-01-01 to year `y`, month `m`, day `d` (all valid, y ≥ 1970). -/
def epochDays (y m d : Nat) : Nat :=
  365 * (y - 1970) + (leapCount (y - 1) - leapCount 1969) + daysBeforeMonth y m + (d - 1)

/-- Epoch milliseconds of a validated date-time. -/
def epochMillis (y mo dy h mi se : Nat) : Int :=
  (((((epochDays y mo dy) * 24 + h) * 60 + mi) * 60 + se) * 1000 : Nat)

/-- Modelled from the spec: `new Date(s).getTime()` on an ISO 8601 UTC
timestamp string; `none` stands for the `NaN` timestamp of an invalid date. -/
def dateGetTime (s : String) : Option Int :=
  match s.data with
  | [y1, y2, y3, y4, '-', mo1, mo2, '-', dy1, dy2, 'T',
     h1, h2, ':', mi1, mi2, ':', se1, se2, 'Z'] =>
    match fourDigits y1 y2 y3 y4, twoDigits mo1 mo2, twoDigits dy1 dy2,
        twoDigits h1 h2, twoDigits mi1 mi2, twoDigits se1 se2 with
    | some y, some mo, some dy, some h, some mi, some se =>
      if 1970 ≤ y ∧ 1 ≤ mo ∧ mo ≤ 12 ∧ 1 ≤ dy ∧ dy ≤ daysInMonth y mo ∧
          h ≤ 23 ∧ mi ≤ 59 ∧ se ≤ 59 then
        some (epochMillis y mo dy h mi se)
      else none
    | _, _, _, _, _, _ => none
  | _ => none

/-! ### Start-time column filter (App.tsx lines 84-93) -/

/-- `const oneHour = 60 * 60 * 1000` from the filter function. -/
def oneHour : Int := 60 * 60 * 1000

/-- The start-time column's `filterFn`. `now` is the evaluation-time clock
value (`new Date().getTime()`); the supplied filter value is ignored, as in
the source. An unparseable `startDateTime` gives `startTimeStamp = NaN`, and
`nowTimeStamp - oneHour < NaN` is false, hence the `none` branch. -/
def filterFn (now : Int) (row : Movie) (_filterValue : String) : Bool :=
  match dateGetTime row.startDateTime with
  | none => false
  | some startTimeStamp =>
    if now - oneHour < startTimeStamp then true else false

/-! ### Sorted/filtered row projection

The table is configured with initial sorting `[{id: startDateTime, desc:
false}]` and initial column filter `[{id: startDateTime, value: "dummy"}]`.
The row model produced by the external table library is modelled from the
spec: the rows passing the column filter, sorted ascending by the start-time
accessor under chronological comparison. -/

/-- Sort key of a row: its parsed start timestamp (displayed rows always
parse, since the filter rejects invalid dates). -/
def sortKey (m : Movie) : Int := (dateGetTime m.startDateTime).getD 0

/-- Chronological order on rows, used by the ascending start-time sort. -/
def timeLE (a b : Movie) : Prop := sortKey a ≤ sortKey b

instance : DecidableRel timeLE := fun a b => Int.decLe (sortKey a) (sortKey b)

instance : IsTotal Movie timeLE := ⟨fun a b => Int.le_total (sortKey a) (sortKey b)⟩

instance : IsTrans Movie timeLE := ⟨fun _ _ _ => Int.le_trans⟩

/-- Modelled from the spec: the displayed body rows under the initial view
state — the movies passing `filterFn` (activated by the sentinel value
`"dummy"`), sorted ascending by start time. -/
def displayedRows (now : Int) (movies : List Movie) : List Movie :=
  List.insertionSort timeLE (movies.filter (fun m => filterFn now m "dummy"))

/-! ### Cell renderers (App.tsx columns) -/

/-- JS indexing into a string array inside a template literal: an
out-of-bounds access yields `undefined`, which the template literal
stringifies as `"undefined"`. -/
def jsArrayGetString (l : List String) (i : Nat) : String :=
  match l.get? i with
  | some s => s
  | none => "undefined"

/-- The Titre cell's search query:
`` `${info.getValue()} ${info.row.original.directors[0]}` ``. -/
def searchQuery (m : Movie) : String :=
  m.title ++ " " ++ jsArrayGetString m.directors 0

/-- The Score Rotten Tomatoes cell:
`info.getValue() ? `${info.getValue()}%` : '-'`. A JS number is falsy
exactly when it is `0` (or `NaN`, not representable in `ℚ`); `undefined`
(absent) is falsy. Template-literal stringification is `toString`. -/
def rottenCell (r : Option ℚ) : String :=
  match r with
  | some v => if v ≠ 0 then toString v ++ "%" else "-"
  | none => "-"

/-- The Score IMDb cell: `info.getValue() ? `${info.getValue()}/10` : '-'`. -/
def imdbCell (r : Option ℚ) : String :=
  match r with
  | some v => if v ≠ 0 then toString v ++ "/10" else "-"
  | none => "-"

/-! ### encodeURIComponent and decodeURIComponent

Modelled from the spec: the Titre cell builds
`https://google.fr/search?q=${encodeURIComponent(searchQuery)}` and the spec
speaks of the query parameter "decoding" back to the plain text. These are
the host language's standard percent-encoding functions, not App.tsx code:
`encodeURIComponent` leaves the unreserved characters
`A-Z a-z 0-9 - _ . ! ~ * ' ( )` alone and replaces every other character by
the `%XX` (uppercase hex) escapes of its UTF-8 bytes; `decodeURIComponent`
reverses this, rejecting malformed or overlong escape sequences (`none`
models the thrown `URIError`). -/

/-- Characters `encodeURIComponent` leaves unescaped (by code point):
letters, digits, and `- _ . ! ~ * ' ( )`. -/
def isUriUnreserved (c : Char) : Bool :=
  let n := c.toNat
  (65 ≤ n && n ≤ 90) || (97 ≤ n && n ≤ 122) || (48 ≤ n && n ≤ 57) ||
    n == 45 || n == 95 || n == 46 || n == 33 || n == 126 || n == 42 ||
    n == 39 || n == 40 || n == 41

/-- UTF-8 bytes of a code point. -/
def utf8Bytes (n : Nat) : List Nat :=
  if n < 128 then [n]
  else if n < 2048 then [192 + n / 64, 128 + n % 64]
  else if n < 65536 then [224 + n / 4096, 128 + n / 64 % 64, 128 + n % 64]
  else [240 + n / 262144, 128 + n / 4096 % 64, 128 + n / 64 % 64, 128 + n % 64]

/-- Uppercase hexadecimal digit character for `n < 16`. -/
def hexDigitChar (n : Nat) : Char :=
  if n < 10 then Char.ofNat (48 + n) else Char.ofNat (55 + n)

/-- The three-character escape `%XX` of one byte. -/
def percentByte (b : Nat) : List Char :=
  ['%', hexDigitChar (b / 16), hexDigitChar (b % 16)]

/-- Encoding of one character: itself if unreserved, else the percent
escapes of its UTF-8 bytes. -/
def encodeChar (c : Char) : List Char :=
  if isUriUnreserved c then [c]
  else ((utf8Bytes c.toNat).map percentByte).flatten

/-- `encodeURIComponent`. -/
def encodeURIComponent (s : String) : String :=
  ⟨(s.data.map encodeChar).flatten⟩

/-- Value of a hexadecimal digit character (either case), `none` otherwise. -/
def hexVal (c : Char) : Option Nat :=
  let n := c.toNat
  if 48 ≤ n ∧ n ≤ 57 then some (n - 48)
  else if 65 ≤ n ∧ n ≤ 70 then some (n - 55)
  else if 97 ≤ n ∧ n ≤ 102 then some (n - 87)
  else none

/-- Reads the two hexadecimal digit characters that must follow a `%`,
as one byte; `none` if fewer than two characters remain or one is not a
hex digit. -/
def readHex2 : List Char → Option Nat
  | h1 :: h2 :: _ =>
    match hexVal h1, hexVal h2 with
    | some a, some b => some (16 * a + b)
    | _, _ => none
  | _ => none

/-- First stage of `decodeURIComponent`: replace every three-character
escape `%XX` by the byte it denotes (`Sum.inr`), keep every literal
character (`Sum.inl`), and reject a `%` not followed by two hex digits. -/
def unescapeTokens : List Char → Option (List (Char ⊕ Nat))
  | [] => some []
  | c :: rest =>
    if c = '%' then
      match readHex2 rest with
      | some b => (unescapeTokens (rest.drop 2)).map (fun l => .inr b :: l)
      | none => none
    else
      (unescapeTokens rest).map (fun l => .inl c :: l)
termination_by l => l.length
decreasing_by
  · simp only [List.length_cons, List.length_drop]; omega
  · simp only [List.length_cons]; omega

/-- The head of the token list, provided it is an escaped byte in the UTF-8
continuation range `[128, 192)`. -/
def contByteAt (l : List (Char ⊕ Nat)) : Option Nat :=
  match l with
  | .inr b :: _ => if 128 ≤ b ∧ b < 192 then some b else none
  | _ => none

/-- Decoding of one UTF-8 sequence with lead byte `b1`: `rest` is the
remaining token list and `r0, r1, r2, r3` are the decodings of `rest` with
its first 0, 1, 2 or 3 tokens removed (the continuations consumed). The lead
byte fixes the sequence length; continuation bytes must be escaped bytes in
`[128, 192)`; overlong encodings, surrogate code points and out-of-range
lead bytes are malformed (`none`). -/
def utf8Seq (b1 : Nat) (rest : List (Char ⊕ Nat))
    (r0 r1 r2 r3 : Option (List Char)) : Option (List Char) :=
  if b1 < 128 then
    r0.map (fun l => Char.ofNat b1 :: l)
  else if 194 ≤ b1 ∧ b1 < 224 then
    match contByteAt rest with
    | some b2 =>
      r1.map (fun l => Char.ofNat ((b1 - 192) * 64 + (b2 - 128)) :: l)
    | none => none
  else if 224 ≤ b1 ∧ b1 < 240 then
    match contByteAt rest, contByteAt (rest.drop 1) with
    | some b2, some b3 =>
      let code := (b1 - 224) * 4096 + (b2 - 128) * 64 + (b3 - 128)
      if 2048 ≤ code ∧ (code < 55296 ∨ 57344 ≤ code) then
        r2.map (fun l => Char.ofNat code :: l)
      else none
    | _, _ => none
  else if 240 ≤ b1 ∧ b1 < 245 then
    match contByteAt rest, contByteAt (rest.drop 1), contByteAt (rest.drop 2) with
    | some b2, some b3, some b4 =>
      let code := (b1 - 240) * 262144 + (b2 - 128) * 4096 +
        (b3 - 128) * 64 + (b4 - 128)
      if 65536 ≤ code ∧ code < 1114112 then
        r3.map (fun l => Char.ofNat code :: l)
      else none
    | _, _, _ => none
  else none

/-- Second stage of `decodeURIComponent`: literal characters pass through;
an escaped byte opens a UTF-8 sequence, handed to `utf8Seq`. -/
def utf8Decode : List (Char ⊕ Nat) → Option (List Char)
  | [] => some []
  | .inl c :: rest => (utf8Decode rest).map (fun l => c :: l)
  | .inr b1 :: rest =>
    utf8Seq b1 rest (utf8Decode rest) (utf8Decode (rest.drop 1))
      (utf8Decode (rest.drop 2)) (utf8Decode (rest.drop 3))
termination_by l => l.length
decreasing_by
  all_goals simp only [List.length_cons, List.length_drop]; omega

/-- `decodeURIComponent`; `none` models a thrown `URIError`. -/
def decodeURIComponent (s : String) : Option String :=
  (unescapeTokens s.data).bind (fun toks => (utf8Decode toks).map (fun l => ⟨l⟩))

/-- The Titre cell's generated link target:
`` `https://google.fr/search?q=${encodeURIComponent(searchQuery)}` ``. -/
def titleHref (m : Movie) : String :=
  "https://google.fr/search?q=" ++ encodeURIComponent (searchQuery m)

/-- The query parameter of the generated title link. -/
def titleQueryParam (m : Movie) : String :=
  encodeURIComponent (searchQuery m)

/-! ### View rendering (App.tsx lines 124-162) -/

/-- The header row: the declared column headers, in order. -/
def headersList : List String :=
  ["Titre", "Image", "Chaîne", "Score Rotten Tomatoes", "Score IMDb", "Heure"]

/-- The three observable states of the query layer (`isPending`, `error`,
`data`), as exposed to the view. -/
inductive QueryState where
  | pending : QueryState
  | failure : String → QueryState
  | success : MoviesResponse → QueryState
deriving DecidableEq

/-- The body of the rendered view: exactly one of the loading indicator, the
error text, or the table (header row plus displayed body rows). -/
inductive ViewBody where
  | loading : ViewBody
  | errorText : String → ViewBody
  | table : List String → List Movie → ViewBody
deriving DecidableEq

/-- The `App` component's conditional rendering:
`isPending ? Loading : error ? Error: message : <table>`. -/
def render (now : Int) (q : QueryState) : ViewBody :=
  match q with
  | .pending => .loading
  | .failure msg => .errorText ("Error: " ++ msg)
  | .success d => .table headersList (displayedRows now d.movies)


/-! ### Round trip of the URI component encoding -/

/-- Token sequence produced by encoding one character. -/
def charTokens (c : Char) : List (Char ⊕ Nat) :=
  if isUriUnreserved c then [.inl c]
  else (utf8Bytes c.toNat).map .inr

lemma hexVal_hexDigitChar (n : Nat) (h : n < 16) :
    hexVal (hexDigitChar n) = some n := by
  interval_cases n <;> decide

lemma readHex2_cons (b : Nat) (hb : b < 256) (rest : List Char) :
    readHex2 (hexDigitChar (b / 16) :: hexDigitChar (b % 16) :: rest) = some b := by
  rw [readHex2, hexVal_hexDigitChar _ (by omega), hexVal_hexDigitChar _ (by omega)]
  show some (16 * (b / 16) + b % 16) = some b
  rw [Nat.div_add_mod]

lemma unescapeTokens_percentByte (b : Nat) (hb : b < 256) (rest : List Char) :
    unescapeTokens (percentByte b ++ rest) =
      (unescapeTokens rest).map (fun l => .inr b :: l) := by
  rw [percentByte, List.cons_append, List.cons_append, List.cons_append,
    List.nil_append, unescapeTokens]
  rw [if_pos rfl, readHex2_cons b hb]
  simp [List.drop]

lemma uriUnreserved_ne_percent (c : Char) (h : isUriUnreserved c = true) :
    ¬ c = '%' := by
  intro hc
  subst hc
  exact absurd h (by decide)

lemma unescapeTokens_literal (c : Char) (hc : ¬ c = '%') (rest : List Char) :
    unescapeTokens (c :: rest) =
      (unescapeTokens rest).map (fun l => .inl c :: l) := by
  rw [unescapeTokens, if_neg hc]

lemma charToNat_bound (c : Char) :
    c.toNat < 55296 ∨ (57344 ≤ c.toNat ∧ c.toNat < 1114112) := by
  have h := c.valid
  simpa [UInt32.isValidChar, Nat.isValidChar, Char.toNat] using h

lemma unescapeTokens_encodeChar (c : Char) (rest : List Char) :
    unescapeTokens (encodeChar c ++ rest) =
      (unescapeTokens rest).map (fun l => charTokens c ++ l) := by
  by_cases hu : isUriUnreserved c
  · rw [encodeChar, if_pos hu, charTokens, if_pos hu, List.cons_append, List.nil_append,
      unescapeTokens_literal c (uriUnreserved_ne_percent c hu)]
    rfl
  · rw [encodeChar, if_neg hu, charTokens, if_neg hu]
    have hv := charToNat_bound c
    set n := c.toNat with hn
    by_cases h1 : n < 128
    · rw [utf8Bytes, if_pos h1]
      simp only [List.map_cons, List.map_nil, List.flatten_cons, List.flatten_nil,
        List.append_nil]
      rw [unescapeTokens_percentByte n (by omega)]
      rfl
    · by_cases h2 : n < 2048
      · rw [utf8Bytes, if_neg h1, if_pos h2]
        simp only [List.map_cons, List.map_nil, List.flatten_cons, List.flatten_nil,
          List.append_nil, List.append_assoc]
        rw [unescapeTokens_percentByte _ (by omega),
          unescapeTokens_percentByte _ (by omega), Option.map_map]
        rfl
      · by_cases h3 : n < 65536
        · rw [utf8Bytes, if_neg h1, if_neg h2, if_pos h3]
          simp only [List.map_cons, List.map_nil, List.flatten_cons, List.flatten_nil,
            List.append_nil, List.append_assoc]
          rw [unescapeTokens_percentByte _ (by omega),
            unescapeTokens_percentByte _ (by omega),
            unescapeTokens_percentByte _ (by omega), Option.map_map, Option.map_map]
          rfl
        · have h4 : n < 1114112 := by rcases hv with h | h <;> omega
          rw [utf8Bytes, if_neg h1, if_neg h2, if_neg h3]
          simp only [List.map_cons, List.map_nil, List.flatten_cons, List.flatten_nil,
            List.append_nil, List.append_assoc]
          rw [unescapeTokens_percentByte _ (by omega),
            unescapeTokens_percentByte _ (by omega),
            unescapeTokens_percentByte _ (by omega),
            unescapeTokens_percentByte _ (by omega),
            Option.map_map, Option.map_map, Option.map_map]
          rfl

lemma contByteAt_cons (b : Nat) (h1 : 128 ≤ b) (h2 : b < 192) (t : List (Char ⊕ Nat)) :
    contByteAt (.inr b :: t) = some b := by
  simp [contByteAt, h1, h2]

lemma utf8Decode_charTokens (c : Char) (toks : List (Char ⊕ Nat)) :
    utf8Decode (charTokens c ++ toks) = (utf8Decode toks).map (fun l => c :: l) := by
  by_cases hu : isUriUnreserved c
  · rw [charTokens, if_pos hu, List.cons_append, List.nil_append, utf8Decode]
  · rw [charTokens, if_neg hu]
    have hv := charToNat_bound c
    set n := c.toNat with hn
    by_cases h1 : n < 128
    · rw [utf8Bytes, if_pos h1]
      simp only [List.map_cons, List.map_nil, List.cons_append, List.nil_append]
      rw [utf8Decode, utf8Seq, if_pos h1, hn, Char.ofNat_toNat]
    · by_cases h2 : n < 2048
      · rw [utf8Bytes, if_neg h1, if_pos h2]
        simp only [List.map_cons, List.map_nil, List.cons_append, List.nil_append]
        rw [utf8Decode, utf8Seq, if_neg (show ¬ (192 + n / 64 < 128) by omega),
          if_pos (show 194 ≤ 192 + n / 64 ∧ 192 + n / 64 < 224 by omega),
          contByteAt_cons _ (by omega) (by omega)]
        simp only [List.drop_succ_cons, List.drop_zero]
        have hcode : (192 + n / 64 - 192) * 64 + (128 + n % 64 - 128) = n := by omega
        rw [hcode, hn, Char.ofNat_toNat]
      · by_cases h3 : n < 65536
        · rw [utf8Bytes, if_neg h1, if_neg h2, if_pos h3]
          simp only [List.map_cons, List.map_nil, List.cons_append, List.nil_append]
          rw [utf8Decode, utf8Seq, if_neg (show ¬ (224 + n / 4096 < 128) by omega),
            if_neg (show ¬ (194 ≤ 224 + n / 4096 ∧ 224 + n / 4096 < 224) by omega),
            if_pos (show 224 ≤ 224 + n / 4096 ∧ 224 + n / 4096 < 240 by omega),
            contByteAt_cons _ (by omega) (by omega)]
          simp only [List.drop_succ_cons, List.drop_zero]
          rw [contByteAt_cons _ (by omega) (by omega)]
          simp only [List.drop_succ_cons, List.drop_zero]
          have hcode : (224 + n / 4096 - 224) * 4096 + (128 + n / 64 % 64 - 128) * 64 +
              (128 + n % 64 - 128) = n := by omega
          rw [hcode]
          have hok : 2048 ≤ n ∧ (n < 55296 ∨ 57344 ≤ n) := by
            rcases hv with h | h
            · exact ⟨by omega, by omega⟩
            · exact ⟨by omega, by omega⟩
          rw [if_pos hok, hn, Char.ofNat_toNat]
        · have h4 : n < 1114112 := by rcases hv with h | h <;> omega
          rw [utf8Bytes, if_neg h1, if_neg h2, if_neg h3]
          simp only [List.map_cons, List.map_nil, List.cons_append, List.nil_append]
          rw [utf8Decode, utf8Seq, if_neg (show ¬ (240 + n / 262144 < 128) by omega),
            if_neg (show ¬ (194 ≤ 240 + n / 262144 ∧ 240 + n / 262144 < 224) by omega),
            if_neg (show ¬ (224 ≤ 240 + n / 262144 ∧ 240 + n / 262144 < 240) by omega),
            if_pos (show 240 ≤ 240 + n / 262144 ∧ 240 + n / 262144 < 245 by omega),
            contByteAt_cons _ (by omega) (by omega)]
          simp only [List.drop_succ_cons, List.drop_zero]
          rw [contByteAt_cons _ (by omega) (by omega),
            contByteAt_cons _ (by omega) (by omega)]
          have hcode : (240 + n / 262144 - 240) * 262144 + (128 + n / 4096 % 64 - 128) * 4096 +
              (128 + n / 64 % 64 - 128) * 64 + (128 + n % 64 - 128) = n := by omega
          simp only [hcode]
          rw [if_pos (show 65536 ≤ n ∧ n < 1114112 by omega), hn, Char.ofNat_toNat]

lemma unescapeTokens_encode (l : List Char) :
    unescapeTokens ((l.map encodeChar).flatten) = some ((l.map charTokens).flatten) := by
  induction l with
  | nil => simp [unescapeTokens]
  | cons c rest ih =>
    simp only [List.map_cons, List.flatten_cons]
    rw [unescapeTokens_encodeChar, ih]
    rfl

lemma utf8Decode_tokens (l : List Char) :
    utf8Decode ((l.map charTokens).flatten) = some l := by
  induction l with
  | nil => simp [utf8Decode]
  | cons c rest ih =>
    simp only [List.map_cons, List.flatten_cons]
    rw [utf8Decode_charTokens, ih]
    rfl

/-- Decoding inverts encoding on every string. -/
theorem decode_encodeURIComponent (s : String) :
    decodeURIComponent (encodeURIComponent s) = some s := by
  show (unescapeTokens ((s.data.map encodeChar).flatten)).bind
      (fun toks => (utf8Decode toks).map (fun l => String.mk l)) = some s
  rw [unescapeTokens_encode, Option.some_bind, utf8Decode_tokens]
  rfl

/-! ### Helper lemmas and concrete fixtures -/

lemma mem_displayedRows_iff (now : Int) (movies : List Movie) (m : Movie) :
    m ∈ displayedRows now movies ↔ m ∈ movies ∧ filterFn now m "dummy" = true := by
  unfold displayedRows
  rw [(List.perm_insertionSort timeLE _).mem_iff, List.mem_filter]

lemma filterFn_eq_true_iff (now : Int) (m : Movie) (v : String) (ts : Int)
    (h : dateGetTime m.startDateTime = some ts) :
    filterFn now m v = true ↔ now - ts < oneHour := by
  simp only [filterFn, h]
  constructor
  · intro hf
    by_contra hn
    rw [if_neg (by omega)] at hf
    exact Bool.false_ne_true hf
  · intro hlt
    rw [if_pos (by omega)]

/-- A movie whose start time (1970-01-02T00:00:00Z, epoch 86400000 ms) can be
placed exactly one hour before a chosen clock value. -/
def mOneHourPast : Movie :=
  { title := "Film", directors := [], categories := [], iconUrl := "",
    startDateTime := "1970-01-02T00:00:00Z", stopDateTime := "1970-01-02T02:00:00Z",
    channelId := "c1", ratingsInfo := { rottenRating := none, imdbRating := none } }

/-- A movie starting at epoch 600000 ms. -/
def mRecent : Movie :=
  { title := "A", directors := [], categories := [], iconUrl := "",
    startDateTime := "1970-01-01T00:10:00Z", stopDateTime := "1970-01-01T01:00:00Z",
    channelId := "c1", ratingsInfo := { rottenRating := none, imdbRating := none } }

/-- A movie starting at epoch 1200000 ms. -/
def mLater : Movie :=
  { title := "B", directors := [], categories := [], iconUrl := "",
    startDateTime := "1970-01-01T00:20:00Z", stopDateTime := "1970-01-01T01:00:00Z",
    channelId := "c2", ratingsInfo := { rottenRating := none, imdbRating := none } }

/-- A movie whose start date-time string is not a valid date. -/
def badDateMovie : Movie :=
  { title := "Bad", directors := [], categories := [], iconUrl := "",
    startDateTime := "not a date", stopDateTime := "", channelId := "c3",
    ratingsInfo := { rottenRating := none, imdbRating := none } }

/-- The spec scenario movie: title Inception, one director. -/
def inceptionMovie : Movie :=
  { title := "Inception", directors := ["Christopher Nolan"], categories := [],
    iconUrl := "", startDateTime := "2010-07-21T20:00:00Z",
    stopDateTime := "2010-07-21T22:28:00Z", channelId := "c4",
    ratingsInfo := { rottenRating := some 87, imdbRating := some 8 } }

/-- As `inceptionMovie` but with an empty directors list. -/
def noDirectorMovie : Movie :=
  { title := "Inception", directors := [], categories := [],
    iconUrl := "", startDateTime := "2010-07-21T20:00:00Z",
    stopDateTime := "2010-07-21T22:28:00Z", channelId := "c4",
    ratingsInfo := { rottenRating := none, imdbRating := none } }

/-! ### Claims -/

/-- C1, counterexample: a row whose `startDateTime` is exactly one hour
before the clock value satisfies the claim's inclusive bound
`now - start <= 1 hour`, yet the filter (which tests
`now - oneHour < start` strictly) excludes it from the displayed set. -/
theorem c1_counterexample :
    dateGetTime mOneHourPast.startDateTime = some 86400000 ∧
    (90000000 : Int) - 86400000 ≤ oneHour ∧
    mOneHourPast ∈ [mOneHourPast] ∧
    mOneHourPast ∉ displayedRows 90000000 [mOneHourPast] :=
  ⟨by decide, by decide, by decide, by decide⟩

/-- C1, amended: a movie row with parsed start timestamp `ts` is present in
the displayed set if and only if it is among the fetched movies and
`now - ts < 1 hour` strictly — the boundary is exclusive, so a row exactly
one hour in the past is not shown. -/
theorem c1_filter_window (now : Int) (movies : List Movie) (m : Movie) (ts : Int)
    (h : dateGetTime m.startDateTime = some ts) :
    m ∈ displayedRows now movies ↔ m ∈ movies ∧ now - ts < oneHour := by
  rw [mem_displayedRows_iff, filterFn_eq_true_iff now m "dummy" ts h]

/-- C1 witness: a movie ten minutes in the past is displayed. -/
theorem c1_filter_window_witness :
    mRecent ∈ displayedRows 1200000 [mRecent] :=
  (c1_filter_window 1200000 [mRecent] mRecent 600000 (by decide)).mpr
    ⟨by decide, by decide⟩

/-- C2: the Rotten Tomatoes cell renders a present non-zero rating as
`"<value>%"`, an absent rating as `"-"`, and — the documented quirk — a
rating of exactly 0 also as `"-"`. -/
theorem c2_rotten_cell (v : ℚ) (hv : v ≠ 0) :
    rottenCell (some v) = toString v ++ "%" ∧
    rottenCell none = "-" ∧ rottenCell (some 0) = "-" := by
  refine ⟨?_, rfl, by decide⟩
  show (if v ≠ 0 then toString v ++ "%" else "-") = toString v ++ "%"
  rw [if_pos hv]

/-- C2 witness at rating 75. -/
theorem c2_rotten_cell_witness :
    rottenCell (some 75) = "75%" ∧ rottenCell none = "-" ∧ rottenCell (some 0) = "-" := by
  have h := c2_rotten_cell 75 (by norm_num)
  exact ⟨h.1.trans (by decide), h.2.1, h.2.2⟩

/-- C3: the IMDb cell renders a present non-zero rating as `"<value>/10"`,
otherwise (absent or exactly zero) `"-"`. -/
theorem c3_imdb_cell (v : ℚ) (hv : v ≠ 0) :
    imdbCell (some v) = toString v ++ "/10" ∧
    imdbCell none = "-" ∧ imdbCell (some 0) = "-" := by
  refine ⟨?_, rfl, by decide⟩
  show (if v ≠ 0 then toString v ++ "/10" else "-") = toString v ++ "/10"
  rw [if_pos hv]

/-- C3 witness at rating 8. -/
theorem c3_imdb_cell_witness :
    imdbCell (some 8) = "8/10" ∧ imdbCell none = "-" ∧ imdbCell (some 0) = "-" := by
  have h := c3_imdb_cell 8 (by norm_num)
  exact ⟨h.1.trans (by decide), h.2.1, h.2.2⟩

/-- C4: under the initial view state the displayed rows are sorted by start
time ascending: at positions `i < j` the parsed start timestamps satisfy
`sortKey row_i ≤ sortKey row_j`. -/
theorem c4_sorted_by_start_time (movies : List Movie) (now : Int)
    (i j : Fin (displayedRows now movies).length) (hij : i < j) :
    sortKey ((displayedRows now movies).get i) ≤
      sortKey ((displayedRows now movies).get j) := by
  have h : List.Sorted timeLE (displayedRows now movies) :=
    List.sorted_insertionSort timeLE _
  exact h.rel_get_of_lt hij

/-- C4 witness: with the later movie listed first, the displayed rows come
out in chronological order. -/
theorem c4_sorted_by_start_time_witness :
    sortKey ((displayedRows 1200000 [mLater, mRecent]).get ⟨0, by decide⟩) ≤
      sortKey ((displayedRows 1200000 [mLater, mRecent]).get ⟨1, by decide⟩) :=
  c4_sorted_by_start_time [mLater, mRecent] 1200000 ⟨0, by decide⟩ ⟨1, by decide⟩
    (by decide)

/-- C5: when the fetch rejects with message `"network down"`, the view is
exactly the text `"Error: network down"`, and is not a table. -/
theorem c5_fetch_error_view (now : Int) :
    render now (.failure "network down") = .errorText "Error: network down" ∧
    ∀ hs rows, render now (.failure "network down") ≠ .table hs rows := by
  refine ⟨rfl, ?_⟩
  intro hs rows h
  exact ViewBody.noConfusion h

/-- C6: for a movie with a non-empty directors list, the title link's query
parameter is the URI-encoding of `"<title> <first director>"`, and decoding
it gives back exactly that text. -/
theorem c6_title_link_query (m : Movie) (h : m.directors ≠ []) :
    titleQueryParam m = encodeURIComponent (m.title ++ " " ++ m.directors.headI) ∧
    decodeURIComponent (titleQueryParam m) =
      some (m.title ++ " " ++ m.directors.headI) := by
  have hq : searchQuery m = m.title ++ " " ++ m.directors.headI := by
    unfold searchQuery jsArrayGetString
    cases hd : m.directors with
    | nil => exact absurd hd h
    | cons d rest => simp [List.headI]
  constructor
  · rw [titleQueryParam, hq]
  · rw [titleQueryParam, hq, decode_encodeURIComponent]

/-- C6 witness: the spec scenario, `"Inception"` with director
`"Christopher Nolan"`. -/
theorem c6_title_link_query_witness :
    decodeURIComponent (titleQueryParam inceptionMovie) =
      some "Inception Christopher Nolan" :=
  ((c6_title_link_query inceptionMovie (by decide)).2).trans (by decide)

/-- C7, counterexample: with an empty directors list the search query is not
the bare title — the out-of-range index stringifies as `"undefined"`, a
spurious director token. -/
theorem c7_counterexample :
    noDirectorMovie.directors = [] ∧
    searchQuery noDirectorMovie = "Inception undefined" ∧
    searchQuery noDirectorMovie ≠ noDirectorMovie.title :=
  ⟨rfl, by decide, by decide⟩

/-- C7, amended: building the query for a movie with no directors does not
crash, but the query is the title followed by a space and the literal token
`"undefined"` (the stringified out-of-range access), not the title alone. -/
theorem c7_no_director_query (m : Movie) (h : m.directors = []) :
    searchQuery m = m.title ++ " " ++ "undefined" := by
  unfold searchQuery jsArrayGetString
  rw [h]
  rfl

/-- C7 witness. -/
theorem c7_no_director_query_witness :
    searchQuery noDirectorMovie = noDirectorMovie.title ++ " " ++ "undefined" :=
  c7_no_director_query noDirectorMovie rfl

/-- C8: the start-time filter predicate gives the same verdict for any two
supplied filter values (the sentinel value is only an activation gate). -/
theorem c8_filter_ignores_value (now : Int) (row : Movie) (v1 v2 : String) :
    filterFn now row v1 = filterFn now row v2 := rfl

/-- C9: a successful fetch with an empty movies list renders the table with
its header row and zero body rows, and no error text. -/
theorem c9_empty_payload (now : Int) (lastUpdate : String) :
    render now (.success ⟨lastUpdate, []⟩) = .table headersList [] ∧
    ∀ msg, render now (.success ⟨lastUpdate, []⟩) ≠ .errorText msg := by
  constructor
  · rfl
  · intro msg h
    exact ViewBody.noConfusion h

/-- C10: a movie whose start date-time string does not parse (timestamp
`NaN`) fails the filter and is excluded from the displayed rows at every
clock value. -/
theorem c10_invalid_date_excluded (now : Int) (movies : List Movie) (m : Movie)
    (v : String) (h : dateGetTime m.startDateTime = none) :
    filterFn now m v = false ∧ m ∉ displayedRows now movies := by
  refine ⟨by simp only [filterFn, h], ?_⟩
  rw [mem_displayedRows_iff]
  rintro ⟨-, hmem⟩
  simp only [filterFn, h] at hmem
  exact Bool.false_ne_true hmem

/-- C10 witness. -/
theorem c10_invalid_date_excluded_witness :
    filterFn 0 badDateMovie "dummy" = false ∧
    badDateMovie ∉ displayedRows 0 [badDateMovie] :=
  c10_invalid_date_excluded 0 [badDateMovie] badDateMovie "dummy" (by decide)

end FilmsTv
